import Mathlib

/-!
# Shallow embedding of the `Topic` broadcast router

Embedding of the repository's `Topic` class: a broadcast-duplication layer
over Redis pub/sub.  The class owns two Redis clients — `publisher` (outbound,
send only) and `subscriber` (inbound, receive only) — and a `disabled` flag.
`publish` stamps the caller's payload with a timestamp and the target channel,
serializes it with `JSON.stringify`, sends it on the reserved `"all"` channel
(unless the target channel already is `"all"`), then sends it on the target
channel.  `subscribe` asks the subscriber client to receive the channel and
registers a filter closure on the client's shared `'message'` stream; the
closure invokes the callback only when the tagged channel name matches.
`unsubscribe` drops the transport-level channel subscription and removes one
listener from the stream.

Modelling choices (each noted at the definition it concerns):
* JS callback functions are opaque: a callback is identified by a `Nat`.
  The subscription closure created by `subscribe` (which captures the channel
  and the callback) is the `Subscription` record; its JS reference identity is a
  fresh `Nat` id drawn from a counter.
* `Date.now()` is an `Int` parameter supplied by the environment.
* The wire string produced by `JSON.stringify` is modelled by the structured
  content it determines (`Serial`).  `JSON.stringify` is deterministic, so
  equality of wire strings coincides with equality of the encoded content;
  its failure on non-serializable data (circular structures) is modelled by a
  `serializable` flag on the payload.
* `publisher.publish(channel, serial)` is recorded on an outbound trace, in
  program order.
* The subscriber Redis client is a set of subscribed channel names plus the
  ordered list of `'message'` listeners; Redis delivers a raw message to the
  client iff the client is subscribed to its channel, and the client then runs
  every registered listener, in registration order.
* A thrown JS exception is an `Option String` result field; side effects
  performed before the throw (the in-place stamping of the payload) persist.
* The `debug(...)` calls are logging only and have no modelled effect.
-/

/-- Channel constants of the source (`const channels = ...`). -/
def Channels.ALL : String := "all"

/-- Channel constant `APP`. -/
def Channels.APP : String := "app"

/-- Channel constant `MEDICAL`. -/
def Channels.MEDICAL : String := "medical"

/-- Channel constant `FINANCE`. -/
def Channels.FINANCE : String := "finance"

/-- Channel constant `INVENTORY`. -/
def Channels.INVENTORY : String := "inventory"

/-- Channel constant `ADMIN`. -/
def Channels.ADMIN : String := "administration"

/-- Caller payload: a JS object.  The two fields the router stamps
(`timestamp`, `channel`) are explicit; the rest of the object's content is
abstracted by the opaque `body` identifier.  `serializable` records whether
`JSON.stringify` succeeds on the object (it throws on circular data). -/
structure Payload where
  timestamp : Option Int
  channel : Option String
  body : Nat
  serializable : Bool
deriving DecidableEq, Repr

/-- Wire message: the string produced by `JSON.stringify`, modelled by the
content it encodes.  Stringify is deterministic, so two wire strings are
byte-identical iff these fields coincide. -/
structure Serial where
  timestamp : Option Int
  channel : Option String
  body : Nat
deriving DecidableEq, Repr

/-- Source `serialize(data)`: `JSON.stringify(data)`.  Throws (returns
`.error`) exactly when the data is not serializable. -/
def serialize (data : Payload) : Except String Serial :=
  if data.serializable then
    .ok { timestamp := data.timestamp, channel := data.channel, body := data.body }
  else
    .error "TypeError: Converting circular structure to JSON"

/-- Source `deserialize(data)`: `JSON.parse(data)`.  The output of parsing a
stringify result is acyclic, hence serializable. -/
def deserialize (s : Serial) : Payload :=
  { timestamp := s.timestamp, channel := s.channel, body := s.body, serializable := true }

/-- The subscription closure registered by `subscribe` on the shared
`'message'` stream: it captures the channel name and the callback.  `id` is
the closure's JS reference identity (used by `removeListener`). -/
structure Subscription where
  id : Nat
  channel : String
  cbId : Nat
deriving DecidableEq, Repr

/-- One callback invocation produced on the inbound side: which filter fired,
which callback it called, and the deserialized argument. -/
structure Invocation where
  filterId : Nat
  cbId : Nat
  arg : Payload
deriving DecidableEq, Repr

/-- State of the subscriber Redis client: the set of channel names it is
subscribed to, and the ordered list of `'message'` listeners. -/
structure RedisSub where
  channels : List String
  listeners : List Subscription
deriving DecidableEq, Repr

/-- Delivery of one raw message tagged `chnl` to the subscriber client: Redis
delivers it iff the client is subscribed to `chnl`; the client then runs every
registered listener in order, and each listener
`(c, data) => c === channel && callback(deserialize(data))` invokes its
callback iff its captured channel equals the tag. -/
def RedisSub.deliver (sub : RedisSub) (chnl : String) (s : Serial) : List Invocation :=
  if chnl ∈ sub.channels then
    sub.listeners.filterMap (fun f =>
      if f.channel = chnl then some { filterId := f.id, cbId := f.cbId, arg := deserialize s }
      else none)
  else []

/-- Node's `emitter.removeListener(fn)`: removes at most one instance of the
listener, scanning from the most recently added one. -/
def removeFirstListenerAux : List Subscription → Nat → List Subscription
  | [], _ => []
  | f :: fs, h => if f.id = h then fs else f :: removeFirstListenerAux fs h

/-- Removal of the last (most recently registered) listener whose reference
identity is `h`, as `removeListener` does. -/
def removeLastListener (fs : List Subscription) (h : Nat) : List Subscription :=
  (removeFirstListenerAux fs.reverse h).reverse

/-- State of the `Topic` router.  `hasPublisher` / `hasSubscriber` record
whether the corresponding Redis client was created; `sends` is the outbound
trace of `publisher.publish(channel, serial)` calls in program order;
`nextFilterId` draws fresh reference identities for subscription closures. -/
structure Topic where
  disabled : Bool
  hasPublisher : Bool
  hasSubscriber : Bool
  sub : RedisSub
  nextFilterId : Nat
  sends : List (String × Serial)
deriving DecidableEq, Repr

/-- Body of the constructor after `this.disabled = b`: if disabled, return
early with no Redis clients created; otherwise create the publisher and the
subscriber clients. -/
def Topic.constructWith (b : Bool) : Topic :=
  if b then
    { disabled := b, hasPublisher := false, hasSubscriber := false,
      sub := { channels := [], listeners := [] }, nextFilterId := 0, sends := [] }
  else
    { disabled := b, hasPublisher := true, hasSubscriber := true,
      sub := { channels := [], listeners := [] }, nextFilterId := 0, sends := [] }

/-- Source `constructor()`: sets `this.disabled = false`, then (the flag being
false) creates both Redis clients. -/
def Topic.init : Topic := Topic.constructWith false

/-- Source `enable()`. -/
def Topic.enable (t : Topic) : Topic := { t with disabled := false }

/-- Source `disable()`. -/
def Topic.disable (t : Topic) : Topic := { t with disabled := true }

/-- Result of `publish`: the router state, the (possibly mutated in place)
caller payload, and the exception propagated to the caller, if any. -/
structure PublishResult where
  topic : Topic
  data : Payload
  thrown : Option String
deriving DecidableEq, Repr

/-- Source `publish(channel, data)`: no-op when disabled; otherwise stamps
`data.timestamp = Date.now()` and `data.channel = channel` in place,
serializes, and — unless `channel` is the `"all"` channel — publishes the
serial on `"all"` first, then always publishes it on `channel`.  A
serialization throw propagates; the stamping that already happened persists
and no send is issued. -/
def Topic.publish (t : Topic) (channel : String) (data : Payload) (now : Int) :
    PublishResult :=
  if t.disabled then { topic := t, data := data, thrown := none }
  else
    let data := { data with timestamp := some now, channel := some channel }
    match serialize data with
    | .error e => { topic := t, data := data, thrown := some e }
    | .ok serial =>
        let sends := t.sends
        let sends := if channel ≠ Channels.ALL then sends ++ [(Channels.ALL, serial)] else sends
        let sends := sends ++ [(channel, serial)]
        { topic := { t with sends := sends }, data := data, thrown := none }

/-- Source `subscribe(channel, callback)`: no-op when disabled; otherwise asks
the subscriber Redis client to subscribe to the channel (idempotent at the
transport level) and registers a fresh subscription closure — capturing the
channel and the callback — on the shared `'message'` stream.  Closures are
never deduplicated. -/
def Topic.subscribe (t : Topic) (channel : String) (callback : Nat) : Topic :=
  if t.disabled then t
  else
    { t with
      sub := { channels := if channel ∈ t.sub.channels then t.sub.channels
                           else t.sub.channels ++ [channel],
               listeners := t.sub.listeners ++
                 [{ id := t.nextFilterId, channel := channel, cbId := callback }] },
      nextFilterId := t.nextFilterId + 1 }

/-- Source `unsubscribe(channel, subscription)`: no-op when disabled;
otherwise drops the transport-level subscription to `channel` (Redis
`UNSUBSCRIBE`: the client stops receiving that channel entirely) and removes
the given listener, if registered, from the `'message'` stream. -/
def Topic.unsubscribe (t : Topic) (channel : String) (subscription : Nat) : Topic :=
  if t.disabled then t
  else
    { t with
      sub := { channels := t.sub.channels.filter (fun c => c != channel),
               listeners := removeLastListener t.sub.listeners subscription } }

/-- Source `disconnect()`: disables the router, removes every listener from
both clients, and closes both connections. -/
def Topic.disconnect (t : Topic) : Topic :=
  { (t.disable) with
    hasPublisher := false, hasSubscriber := false,
    sub := { channels := t.sub.channels, listeners := [] } }

/-- Sequencing of several `publish` calls on one channel, each with its own
payload and wall-clock time, keeping the router state. -/
def Topic.publishAll (t : Topic) (channel : String) : List (Payload × Int) → Topic
  | [] => t
  | d :: ds => ((t.publish channel d.1 d.2).topic).publishAll channel ds

/-- All callback invocations produced by delivering each element of an
outbound trace, in order, to the subscriber client. -/
def deliverAll (sub : RedisSub) : List (String × Serial) → List Invocation
  | [] => []
  | (c, s) :: rest => sub.deliver c s ++ deliverAll sub rest

/-! ## Helper lemmas -/

/-- Enabled `publish` on a serializable payload: explicit description of the
result — the payload is stamped in place and the duplicated sends are appended
to the outbound trace. -/
lemma Topic.publish_eq_of_serializable (t : Topic) (ch : String) (d : Payload) (now : Int)
    (he : t.disabled = false) (hs : d.serializable = true) :
    t.publish ch d now =
      { topic := { t with sends := t.sends ++
          ((if ch ≠ Channels.ALL
            then [(Channels.ALL, { timestamp := some now, channel := some ch, body := d.body })]
            else []) ++
           [(ch, { timestamp := some now, channel := some ch, body := d.body })]) },
        data := { d with timestamp := some now, channel := some ch },
        thrown := none } := by
  unfold Topic.publish
  rw [if_neg (by simp [he])]
  simp only [serialize, hs, if_true]
  by_cases h : ch = Channels.ALL <;> simp [h]

/-- Outbound trace produced by a sequence of `publish` calls on one channel
with serializable payloads. -/
def pubTrace (ch : String) : List (Payload × Int) → List (String × Serial)
  | [] => []
  | d :: ds =>
      ((if ch ≠ Channels.ALL
        then [(Channels.ALL, { timestamp := some d.2, channel := some ch, body := d.1.body })]
        else []) ++
       [(ch, { timestamp := some d.2, channel := some ch, body := d.1.body })]) ++ pubTrace ch ds

/-- `publishAll` on serializable payloads only appends `pubTrace` to the
outbound trace. -/
lemma Topic.publishAll_eq (ch : String) :
    ∀ (ds : List (Payload × Int)) (t : Topic), t.disabled = false →
      (ds.all fun d => d.1.serializable) = true →
      t.publishAll ch ds = { t with sends := t.sends ++ pubTrace ch ds }
  | [], t, _, _ => by simp [Topic.publishAll, pubTrace]
  | d :: ds, t, he, hs => by
      rw [List.all_cons, Bool.and_eq_true] at hs
      rw [Topic.publishAll, Topic.publish_eq_of_serializable t ch d.1 d.2 he hs.1]
      dsimp only
      rw [Topic.publishAll_eq ch ds
        { t with sends := t.sends ++
            ((if ch ≠ Channels.ALL
              then [(Channels.ALL, { timestamp := some d.2, channel := some ch, body := d.1.body })]
              else []) ++
             [(ch, { timestamp := some d.2, channel := some ch, body := d.1.body })]) }
        he hs.2]
      simp [pubTrace, List.append_assoc]

/-- `deliverAll` distributes over trace concatenation. -/
lemma deliverAll_append (sub : RedisSub) (a b : List (String × Serial)) :
    deliverAll sub (a ++ b) = deliverAll sub a ++ deliverAll sub b := by
  induction a with
  | nil => rfl
  | cons x a ih => cases x; simp [deliverAll, ih]

/-- Delivery to a client holding exactly one subscription. -/
lemma RedisSub.deliver_single (X c : String) (idv cb : Nat) (s : Serial) :
    RedisSub.deliver { channels := [X], listeners := [{ id := idv, channel := X, cbId := cb }] } c s =
      if c = X then [{ filterId := idv, cbId := cb, arg := deserialize s }] else [] := by
  by_cases h : c = X <;>
    simp [RedisSub.deliver, h, List.filterMap]

/-- Delivering the trace of a payload sequence published on `X` to a client
with the single subscription `(X, cb)` yields one invocation per publish, in
publish order. -/
lemma deliverAll_pubTrace (X : String) (cb : Nat) (ds : List (Payload × Int)) :
    deliverAll { channels := [X], listeners := [{ id := 0, channel := X, cbId := cb }] }
        (pubTrace X ds) =
      ds.map (fun d =>
        { filterId := 0, cbId := cb,
          arg := { timestamp := some d.2, channel := some X, body := d.1.body,
                   serializable := true } }) := by
  induction ds with
  | nil => rfl
  | cons d ds ih =>
      rw [pubTrace, deliverAll_append, deliverAll_append]
      by_cases h : X = Channels.ALL
      · subst h
        simp [deliverAll, RedisSub.deliver_single, ih, deserialize]
      · have h' : ¬(Channels.ALL = X) := fun hh => h hh.symm
        simp [deliverAll, RedisSub.deliver_single, ih, deserialize, h, h']

/-- Shape of the subscriber client right after the first `subscribe` on a
fresh router. -/
lemma Topic.init_subscribe_sub (X : String) (cb : Nat) :
    (Topic.init.subscribe X cb).sub =
      { channels := [X], listeners := [{ id := 0, channel := X, cbId := cb }] } := by
  simp [Topic.init, Topic.constructWith, Topic.subscribe]

/-- A listener list from which one occurrence of `h` was removed contains no
listener with identity `h`, provided identities were distinct. -/
lemma removeFirstListenerAux_id_ne (h : Nat) :
    ∀ fs : List Subscription, (fs.map Subscription.id).Nodup →
      ∀ f ∈ removeFirstListenerAux fs h, f.id ≠ h
  | [], _, f, hf => by simp [removeFirstListenerAux] at hf
  | g :: fs, hnd, f, hf => by
      rw [List.map_cons, List.nodup_cons] at hnd
      rw [removeFirstListenerAux] at hf
      by_cases hg : g.id = h
      · rw [if_pos hg] at hf
        intro hfh
        exact hnd.1 (hg ▸ hfh ▸ List.mem_map_of_mem Subscription.id hf)
      · rw [if_neg hg] at hf
        rcases List.mem_cons.mp hf with hfg | hfr
        · exact hfg ▸ hg
        · exact removeFirstListenerAux_id_ne h fs hnd.2 f hfr

/-- Removing a listener identity that occurs nowhere leaves the list
unchanged. -/
lemma removeFirstListenerAux_eq_of_absent (h : Nat) :
    ∀ fs : List Subscription, (∀ f ∈ fs, f.id ≠ h) → removeFirstListenerAux fs h = fs
  | [], _ => rfl
  | g :: fs, habs => by
      rw [removeFirstListenerAux, if_neg (habs g (List.mem_cons_self g fs))]
      rw [removeFirstListenerAux_eq_of_absent h fs (fun f hf => habs f (List.mem_cons_of_mem g hf))]

/-- `removeLastListener` version of `removeFirstListenerAux_id_ne`. -/
lemma removeLastListener_id_ne (fs : List Subscription) (h : Nat)
    (hnd : (fs.map Subscription.id).Nodup) :
    ∀ f ∈ removeLastListener fs h, f.id ≠ h := by
  intro f hf
  rw [removeLastListener, List.mem_reverse] at hf
  exact removeFirstListenerAux_id_ne h fs.reverse
    (by rw [List.map_reverse]; exact List.nodup_reverse.mpr hnd) f hf

/-- `removeLastListener` of an absent identity is the identity map. -/
lemma removeLastListener_eq_of_absent (fs : List Subscription) (h : Nat)
    (habs : ∀ f ∈ fs, f.id ≠ h) : removeLastListener fs h = fs := by
  rw [removeLastListener,
    removeFirstListenerAux_eq_of_absent h fs.reverse (fun f hf => habs f (List.mem_reverse.mp hf)),
    List.reverse_reverse]

/-- A channel never survives the transport-level removal of itself. -/
lemma not_mem_filter_bne_self (ch : String) (l : List String) :
    ch ∉ l.filter (fun c => c != ch) := by
  simp [List.mem_filter]

/-- Transport-level removal of one channel does not affect membership of the
other channels. -/
lemma mem_filter_bne_iff (c ch : String) (l : List String) (hc : c ≠ ch) :
    (c ∈ l.filter fun x => x != ch) ↔ c ∈ l := by
  simp [List.mem_filter, hc]

/-! ## Witness fixtures -/

/-- Concrete serializable payload with no pre-existing stamped fields. -/
def wPayload : Payload := { timestamp := none, channel := none, body := 42, serializable := true }

/-- Concrete serializable payload that already carries `timestamp` and
`channel` fields (to exhibit overwriting). -/
def wStamped : Payload :=
  { timestamp := some 99, channel := some "old", body := 1, serializable := true }

/-- Concrete non-serializable (circular) payload. -/
def wCircular : Payload := { timestamp := none, channel := none, body := 7, serializable := false }

/-- Concrete wire message tagged for channel `"C"`. -/
def wSerial : Serial := { timestamp := some 5, channel := some "C", body := 9 }

/-! ## Claim theorems -/

/-- C1: with the Router enabled, `publish(channel, payload)` sends the
serialized envelope through the Outbound Handle exactly twice when `channel`
is not the reserved `"all"` channel — first on `"all"`, then on `channel`, in
that program order — and exactly once, on `"all"` only, when `channel` is the
`"all"` channel. -/
theorem Topic.publish_broadcast_duplication (t : Topic) (ch : String) (d : Payload) (now : Int)
    (he : t.disabled = false) (hs : d.serializable = true) :
    ∃ s : Serial, (t.publish ch d now).topic.sends =
      t.sends ++ (if ch = Channels.ALL then [(Channels.ALL, s)]
                  else [(Channels.ALL, s), (ch, s)]) := by
  refine ⟨{ timestamp := some now, channel := some ch, body := d.body }, ?_⟩
  rw [Topic.publish_eq_of_serializable t ch d now he hs]
  by_cases h : ch = Channels.ALL <;> simp [h]

/-- Witness for C1 at a concrete enabled router and serializable payload. -/
theorem Topic.publish_broadcast_duplication_witness :
    Topic.init.disabled = false ∧ wPayload.serializable = true ∧
    ∃ s : Serial, (Topic.init.publish "finance" wPayload 5).topic.sends =
      Topic.init.sends ++ (if "finance" = Channels.ALL then [(Channels.ALL, s)]
                  else [(Channels.ALL, s), ("finance", s)]) :=
  ⟨rfl, rfl, Topic.publish_broadcast_duplication Topic.init "finance" wPayload 5 rfl rfl⟩

/-- C5: while the disabled flag is set, `publish`, `subscribe` and
`unsubscribe` all return without raising and with zero observable side
effects: the router state (transport trace, subscription set, listeners) and
the caller payload are unchanged, and nothing is thrown. -/
theorem Topic.disabled_operations_noop (t : Topic) (ch : String) (d : Payload) (now : Int)
    (cb handle : Nat) (hd : t.disabled = true) :
    t.publish ch d now = { topic := t, data := d, thrown := none } ∧
    t.subscribe ch cb = t ∧
    t.unsubscribe ch handle = t := by
  refine ⟨?_, ?_, ?_⟩ <;>
    simp [Topic.publish, Topic.subscribe, Topic.unsubscribe, hd]

/-- Witness for C5 on a concretely disabled router. -/
theorem Topic.disabled_operations_noop_witness :
    (Topic.init.disable).disabled = true ∧
    ((Topic.init.disable).publish "x" wPayload 3 =
      { topic := Topic.init.disable, data := wPayload, thrown := none } ∧
     (Topic.init.disable).subscribe "x" 1 = Topic.init.disable ∧
     (Topic.init.disable).unsubscribe "x" 0 = Topic.init.disable) :=
  ⟨rfl, Topic.disabled_operations_noop (Topic.init.disable) "x" wPayload 3 1 0 rfl⟩

/-- C6: every enabled `publish(channel, payload)` mutates the caller payload
in place, setting the millisecond timestamp and the channel field —
overwriting whatever values those fields previously held — before
serialization; consequently every envelope the call places on the outbound
trace carries both stamped fields. -/
theorem Topic.publish_stamps_payload (t : Topic) (ch : String) (d : Payload) (now : Int)
    (he : t.disabled = false) :
    (t.publish ch d now).data = { d with timestamp := some now, channel := some ch } ∧
    ∀ x ∈ (t.publish ch d now).topic.sends,
      x ∈ t.sends ∨ (x.2.timestamp = some now ∧ x.2.channel = some ch) := by
  by_cases hs : d.serializable
  · rw [Topic.publish_eq_of_serializable t ch d now he hs]
    refine ⟨rfl, ?_⟩
    intro x hx
    dsimp only at hx
    rw [List.mem_append] at hx
    rcases hx with hx | hx
    · exact Or.inl hx
    · right
      rw [List.mem_append] at hx
      rcases hx with hx | hx
      · by_cases h : ch = Channels.ALL
        · simp [h] at hx
        · simp [h] at hx
          simp [hx]
      · simp at hx
        simp [hx]
  · have hs' : d.serializable = false := by simpa using hs
    have hrw : t.publish ch d now =
        { topic := t, data := { d with timestamp := some now, channel := some ch },
          thrown := some "TypeError: Converting circular structure to JSON" } := by
      unfold Topic.publish
      rw [if_neg (by simp [he])]
      simp [serialize, hs']
    rw [hrw]
    exact ⟨rfl, fun x hx => Or.inl hx⟩

/-- Witness for C6 on a payload that already carried both fields: they are
overwritten. -/
theorem Topic.publish_stamps_payload_witness :
    Topic.init.disabled = false ∧
    ((Topic.init.publish "app" wStamped 123).data =
      { wStamped with timestamp := some 123, channel := some "app" } ∧
     ∀ x ∈ (Topic.init.publish "app" wStamped 123).topic.sends,
       x ∈ Topic.init.sends ∨ (x.2.timestamp = some 123 ∧ x.2.channel = some "app")) :=
  ⟨rfl, Topic.publish_stamps_payload Topic.init "app" wStamped 123 rfl⟩

/-- C9: an enabled `publish` whose payload cannot be serialized fails
synchronously — the `JSON.stringify` error propagates to the caller rather
than being swallowed — and no send is issued through the Outbound Handle (the
router state, its outbound trace included, is untouched). -/
theorem Topic.publish_serialize_error_propagates (t : Topic) (ch : String) (d : Payload)
    (now : Int) (he : t.disabled = false) (hs : d.serializable = false) :
    (t.publish ch d now).thrown =
      some "TypeError: Converting circular structure to JSON" ∧
    (t.publish ch d now).topic = t := by
  unfold Topic.publish
  rw [if_neg (by simp [he])]
  simp [serialize, hs]

/-- Witness for C9 on a concrete circular payload. -/
theorem Topic.publish_serialize_error_propagates_witness :
    Topic.init.disabled = false ∧ wCircular.serializable = false ∧
    ((Topic.init.publish "app" wCircular 9).thrown =
      some "TypeError: Converting circular structure to JSON" ∧
     (Topic.init.publish "app" wCircular 9).topic = Topic.init) :=
  ⟨rfl, rfl, Topic.publish_serialize_error_propagates Topic.init "app" wCircular 9 rfl rfl⟩

/-- C10: within one enabled `publish` on a channel other than `"all"`, the
stamped payload is serialized exactly once and that single wire value — with
its single timestamp — is what both the `"all"`-channel send and the
channel-specific send carry, byte for byte. -/
theorem Topic.publish_single_serialization (t : Topic) (ch : String) (d : Payload) (now : Int)
    (he : t.disabled = false) (hs : d.serializable = true) (hne : ch ≠ Channels.ALL) :
    serialize ((t.publish ch d now).data) =
      .ok { timestamp := some now, channel := some ch, body := d.body } ∧
    (t.publish ch d now).topic.sends =
      t.sends ++
        [(Channels.ALL, { timestamp := some now, channel := some ch, body := d.body }),
         (ch, { timestamp := some now, channel := some ch, body := d.body })] := by
  rw [Topic.publish_eq_of_serializable t ch d now he hs]
  exact ⟨by simp [serialize, hs], by simp [hne]⟩

/-- Witness for C10 on a concrete non-`"all"` channel. -/
theorem Topic.publish_single_serialization_witness :
    Topic.init.disabled = false ∧ wPayload.serializable = true ∧
    ("medical" ≠ Channels.ALL) ∧
    (serialize ((Topic.init.publish "medical" wPayload 11).data) =
      .ok { timestamp := some 11, channel := some "medical", body := wPayload.body } ∧
     (Topic.init.publish "medical" wPayload 11).topic.sends =
      Topic.init.sends ++
        [(Channels.ALL, { timestamp := some 11, channel := some "medical", body := wPayload.body }),
         ("medical", { timestamp := some 11, channel := some "medical", body := wPayload.body })]) :=
  ⟨rfl, rfl, by decide,
   Topic.publish_single_serialization Topic.init "medical" wPayload 11 rfl rfl (by decide)⟩

/-- C2: the filter registered by `subscribe(X, callback)` invokes the callback
only when the tagged channel of an inbound message equals `X` exactly; for
every other tagged channel it contributes no invocation at all.  The filter
registered by this `subscribe` call is the one whose reference identity is the
router's current `nextFilterId`; the hypothesis states that all previously
registered filters carry older identities, which holds in every reachable
state. -/
theorem Topic.subscribe_channel_isolation (t : Topic) (X : String) (cb : Nat)
    (chnl : String) (s : Serial)
    (hwf : (t.sub.listeners.all fun f => decide (f.id < t.nextFilterId)) = true)
    (he : t.disabled = false) (hne : chnl ≠ X) :
    ((t.subscribe X cb).sub.deliver chnl s).filter
        (fun inv => inv.filterId == t.nextFilterId) = [] := by
  rw [List.all_eq_true] at hwf
  unfold Topic.subscribe
  rw [if_neg (by simp [he])]
  unfold RedisSub.deliver
  dsimp only
  by_cases hmem : chnl ∈ (if X ∈ t.sub.channels then t.sub.channels else t.sub.channels ++ [X])
  · rw [if_pos hmem, List.filterMap_append, List.filter_append]
    have h1 : (List.filterMap (fun f : Subscription =>
        if f.channel = chnl
        then some (Invocation.mk f.id f.cbId (deserialize s))
        else none) t.sub.listeners).filter (fun inv => inv.filterId == t.nextFilterId) = [] := by
      rw [List.filter_eq_nil_iff]
      intro inv hinv
      rw [List.mem_filterMap] at hinv
      rcases hinv with ⟨f, hf, hfe⟩
      by_cases hc : f.channel = chnl
      · rw [if_pos hc] at hfe
        injection hfe with hfe
        have hlt : f.id < t.nextFilterId := by simpa using hwf f hf
        subst hfe
        simp [Nat.ne_of_lt hlt]
      · rw [if_neg hc] at hfe
        exact absurd hfe (by simp)
    have h2 : (List.filterMap (fun f : Subscription =>
        if f.channel = chnl
        then some (Invocation.mk f.id f.cbId (deserialize s))
        else none) [Subscription.mk t.nextFilterId X cb]).filter
          (fun inv => inv.filterId == t.nextFilterId) = [] := by
      have hxc : ¬(X = chnl) := fun hh => hne hh.symm
      simp [List.filterMap, hxc]
    rw [h1, h2]
    rfl
  · rw [if_neg hmem]
    rfl

/-- Witness for C2: on a fresh router subscribed to `"X"`, a message tagged
`"Y"` produces no invocation of the new filter. -/
theorem Topic.subscribe_channel_isolation_witness :
    (Topic.init.sub.listeners.all fun f => decide (f.id < Topic.init.nextFilterId)) = true ∧
    Topic.init.disabled = false ∧ ("Y" : String) ≠ "X" ∧
    ((Topic.init.subscribe "X" 1).sub.deliver "Y" wSerial).filter
        (fun inv => inv.filterId == Topic.init.nextFilterId) = [] :=
  ⟨rfl, rfl, by decide,
   Topic.subscribe_channel_isolation Topic.init "X" 1 "Y" wSerial rfl rfl (by decide)⟩

/-- C3: each `subscribe` call registers one new filter and filters are never
deduplicated — subscribing the same channel/callback pair twice yields two
invocations per matching message — and, with a single subscriber registered on
a channel, a sequence of `N` publishes on that channel invokes the callback
exactly `N` times, in publish order, each time with the stamped payload of the
corresponding publish. -/
theorem Topic.subscribe_multiplicity (X : String) (cb : Nat) (ds : List (Payload × Int))
    (s : Serial) (hs : (ds.all fun d => d.1.serializable) = true) :
    deliverAll (Topic.init.subscribe X cb).sub
        ((Topic.init.subscribe X cb).publishAll X ds).sends =
      ds.map (fun d =>
        { filterId := 0, cbId := cb,
          arg := { timestamp := some d.2, channel := some X, body := d.1.body,
                   serializable := true } }) ∧
    ((Topic.init.subscribe X cb).subscribe X cb).sub.deliver X s =
      [{ filterId := 0, cbId := cb, arg := deserialize s },
       { filterId := 1, cbId := cb, arg := deserialize s }] := by
  constructor
  · rw [Topic.publishAll_eq X ds (Topic.init.subscribe X cb)
      (by simp [Topic.init, Topic.constructWith, Topic.subscribe]) hs]
    rw [Topic.init_subscribe_sub]
    have hsends : (Topic.init.subscribe X cb).sends = [] := by
      simp [Topic.init, Topic.constructWith, Topic.subscribe]
    dsimp only
    rw [hsends, List.nil_append, deliverAll_pubTrace]
  · have hsub : ((Topic.init.subscribe X cb).subscribe X cb).sub =
        { channels := [X],
          listeners := [{ id := 0, channel := X, cbId := cb },
                        { id := 1, channel := X, cbId := cb }] } := by
      simp [Topic.init, Topic.constructWith, Topic.subscribe]
    rw [hsub]
    simp [RedisSub.deliver, List.filterMap]

/-- Witness for C3: three publishes on `"B"` invoke the single subscriber
exactly three times, in order; a duplicate subscription fires twice. -/
theorem Topic.subscribe_multiplicity_witness :
    (([(wPayload, 1), (wPayload, 2), (wStamped, 3)].all fun d => d.1.serializable) = true) ∧
    (deliverAll (Topic.init.subscribe "B" 4).sub
        ((Topic.init.subscribe "B" 4).publishAll "B"
          [(wPayload, 1), (wPayload, 2), (wStamped, 3)]).sends =
      [(wPayload, 1), (wPayload, 2), (wStamped, 3)].map (fun d =>
        { filterId := 0, cbId := 4,
          arg := { timestamp := some d.2, channel := some "B", body := d.1.body,
                   serializable := true } }) ∧
     ((Topic.init.subscribe "B" 4).subscribe "B" 4).sub.deliver "B" wSerial =
      [{ filterId := 0, cbId := 4, arg := deserialize wSerial },
       { filterId := 1, cbId := 4, arg := deserialize wSerial }]) :=
  ⟨rfl, Topic.subscribe_multiplicity "B" 4 [(wPayload, 1), (wPayload, 2), (wStamped, 3)]
    wSerial rfl⟩

/-- C4 counterexample: two subscriptions are registered on channel `"C"`
(handles 0 and 1).  `unsubscribe("C", 0)` with the exact handle of the first
removes that listener — the second one (handle 1) is still registered — yet a
message tagged `"C"` now produces no invocation at all: `unsubscribe` also
dropped the transport-level subscription to `"C"`, so the other filter on the
same channel does not continue to fire, contrary to the claim.  Before the
removal, the same message invoked both callbacks. -/
theorem Topic.unsubscribe_exact_counterexample :
    ((Topic.init.subscribe "C" 5).subscribe "C" 7).sub.deliver "C" wSerial =
      [{ filterId := 0, cbId := 5, arg := deserialize wSerial },
       { filterId := 1, cbId := 7, arg := deserialize wSerial }] ∧
    (((Topic.init.subscribe "C" 5).subscribe "C" 7).unsubscribe "C" 0).sub.listeners =
      [{ id := 1, channel := "C", cbId := 7 }] ∧
    (((Topic.init.subscribe "C" 5).subscribe "C" 7).unsubscribe "C" 0).sub.deliver
        "C" wSerial = [] := by
  refine ⟨?_, ?_, ?_⟩ <;> rfl

/-- C4 (amended): after an enabled `unsubscribe(channel, handle)` with the
exact filter handle produced by the corresponding `subscribe`, the targeted
listener is no longer registered (so its callback never fires again), and —
because `unsubscribe` also removes the transport-level channel subscription —
no filter on that channel, the targeted one or any other, receives future
publishes on it.  The hypothesis that listener identities are pairwise
distinct holds in every reachable state (identities are drawn from a
counter). -/
theorem Topic.unsubscribe_exact_stops_channel (t : Topic) (ch : String) (handle : Nat)
    (s : Serial) (he : t.disabled = false)
    (hnd : (t.sub.listeners.map Subscription.id).Nodup) :
    ((t.unsubscribe ch handle).sub.listeners.filter (fun f => f.id == handle)) = [] ∧
    (t.unsubscribe ch handle).sub.deliver ch s = [] := by
  unfold Topic.unsubscribe
  rw [if_neg (by simp [he])]
  constructor
  · rw [List.filter_eq_nil_iff]
    intro f hf
    simpa using removeLastListener_id_ne t.sub.listeners handle hnd f hf
  · unfold RedisSub.deliver
    rw [if_neg (not_mem_filter_bne_self ch t.sub.channels)]

/-- Witness for the amended C4 on the concrete two-subscription scenario. -/
theorem Topic.unsubscribe_exact_stops_channel_witness :
    (((Topic.init.subscribe "C" 5).subscribe "C" 7).disabled = false) ∧
    ((((Topic.init.subscribe "C" 5).subscribe "C" 7).sub.listeners.map
        Subscription.id).Nodup) ∧
    (((((Topic.init.subscribe "C" 5).subscribe "C" 7).unsubscribe "C" 0).sub.listeners.filter
        (fun f => f.id == 0)) = [] ∧
     ((((Topic.init.subscribe "C" 5).subscribe "C" 7).unsubscribe "C" 0).sub.deliver
        "C" wSerial = [])) :=
  ⟨rfl, by decide,
   Topic.unsubscribe_exact_stops_channel ((Topic.init.subscribe "C" 5).subscribe "C" 7)
     "C" 0 wSerial rfl (by decide)⟩

/-- C7 counterexample: one subscription (handle 0) is live on channel `"C"`
and a message tagged `"C"` invokes it.  Calling `unsubscribe("C", 99)` with a
handle that was never registered removes no listener — handle 0 stays
registered — yet afterwards the same message produces no invocation: the call
dropped the transport-level subscription to `"C"`, an observable effect on
delivery to the existing filter, contrary to the claim that it is a no-op. -/
theorem Topic.unsubscribe_unregistered_counterexample :
    (Topic.init.subscribe "C" 5).sub.deliver "C" wSerial =
      [{ filterId := 0, cbId := 5, arg := deserialize wSerial }] ∧
    ((Topic.init.subscribe "C" 5).unsubscribe "C" 99).sub.listeners =
      [{ id := 0, channel := "C", cbId := 5 }] ∧
    ((Topic.init.subscribe "C" 5).unsubscribe "C" 99).sub.deliver "C" wSerial = [] := by
  refine ⟨?_, ?_, ?_⟩ <;> rfl

/-- C7 (amended): an enabled `unsubscribe(channel, handle)` with a handle that
was never registered raises nothing and removes no listener, but it is not a
delivery no-op: it still drops the transport-level subscription to `channel`,
so existing filters on that channel stop receiving future publishes on it,
while delivery on every other channel is unaffected. -/
theorem Topic.unsubscribe_unregistered_effect (t : Topic) (ch c : String) (handle : Nat)
    (s : Serial) (he : t.disabled = false)
    (hnr : (t.sub.listeners.filter (fun f => f.id == handle)) = [])
    (hc : c ≠ ch) :
    (t.unsubscribe ch handle).sub.listeners = t.sub.listeners ∧
    (t.unsubscribe ch handle).sub.deliver ch s = [] ∧
    (t.unsubscribe ch handle).sub.deliver c s = t.sub.deliver c s := by
  rw [List.filter_eq_nil_iff] at hnr
  have habs : ∀ f ∈ t.sub.listeners, f.id ≠ handle := fun f hf => by
    simpa using hnr f hf
  unfold Topic.unsubscribe
  rw [if_neg (by simp [he])]
  refine ⟨removeLastListener_eq_of_absent t.sub.listeners handle habs, ?_, ?_⟩
  · unfold RedisSub.deliver
    rw [if_neg (not_mem_filter_bne_self ch t.sub.channels)]
  · unfold RedisSub.deliver
    dsimp only
    rw [removeLastListener_eq_of_absent t.sub.listeners handle habs]
    by_cases hm : c ∈ t.sub.channels
    · rw [if_pos hm, if_pos ((mem_filter_bne_iff c ch t.sub.channels hc).mpr hm)]
    · rw [if_neg hm, if_neg (fun hmm => hm ((mem_filter_bne_iff c ch t.sub.channels hc).mp hmm))]

/-- Witness for the amended C7 on the concrete never-registered handle 99. -/
theorem Topic.unsubscribe_unregistered_effect_witness :
    ((Topic.init.subscribe "C" 5).disabled = false) ∧
    ((Topic.init.subscribe "C" 5).sub.listeners.filter (fun f => f.id == 99) = []) ∧
    (("D" : String) ≠ "C") ∧
    (((Topic.init.subscribe "C" 5).unsubscribe "C" 99).sub.listeners =
        (Topic.init.subscribe "C" 5).sub.listeners ∧
     ((Topic.init.subscribe "C" 5).unsubscribe "C" 99).sub.deliver "C" wSerial = [] ∧
     ((Topic.init.subscribe "C" 5).unsubscribe "C" 99).sub.deliver "D" wSerial =
        (Topic.init.subscribe "C" 5).sub.deliver "D" wSerial) :=
  ⟨rfl, by decide, by decide,
   Topic.unsubscribe_unregistered_effect (Topic.init.subscribe "C" 5) "C" "D" 99 wSerial
     rfl (by decide) (by decide)⟩

/-- C8 counterexample: the constructor hard-codes `this.disabled = false`, so
the Router is never constructed in the DISABLED state — the claim that it
supports being constructed already disabled fails on the only construction
path the code has. -/
theorem Topic.init_not_disabled : Topic.init.disabled ≠ true := by decide

/-- C8 (amended): the constructor always produces the ENABLED state — its
disabled flag is unconditionally set to `false` — and then opens both
transport handles; the constructor's disabled branch, which would open no
handles, is unreachable dead code. -/
theorem Topic.init_enabled_opens_handles :
    Topic.init.disabled = false ∧
    Topic.init.hasPublisher = true ∧
    Topic.init.hasSubscriber = true ∧
    (Topic.constructWith true).hasPublisher = false ∧
    (Topic.constructWith true).hasSubscriber = false := by
  refine ⟨rfl, rfl, rfl, ?_, ?_⟩ <;> rfl
